import Mathlib

/-!
Verification of the routing core of a multi-agent real-estate assistant.

The embedding translates `app/graph_nodes.py` (router and handler nodes),
`app/graph_builder.py` (conditional dispatch), `app/schemas.py`
(structured router output) and the response-extraction logic of
`app/main.py` into Lean. The external completion capability (the LLM)
is modelled as an explicit input of type `Except String _`: `.ok` is a
successful invocation, `.error e` an invocation failure whose Python
exception text is `e`.
-/

/-- Role of a message: `HumanMessage` vs `AIMessage` in the source. -/
inductive Role where
  | user
  | assistant
  deriving DecidableEq, Repr

/-- One typed content part of a message, as built by `app/main.py`:
either a text part or an image part. -/
inductive ContentPart where
  | text (s : String)
  | image_url (url : String)
  deriving DecidableEq, Repr

/-- Message content: either a plain string or a list of typed parts
(`message.content` in langchain messages). -/
inductive MessageContent where
  | str (s : String)
  | parts (ps : List ContentPart)
  deriving DecidableEq, Repr

/-- A message in the conversation state (`BaseMessage`). -/
structure Message where
  role : Role
  content : MessageContent
  deriving DecidableEq, Repr

/-- Shorthand for the `AIMessage(content=...)` constructor used by the nodes. -/
def mkAI (s : String) : Message := ⟨Role.assistant, MessageContent.str s⟩

/-- The routing decision literals of `RouterOutput.decision` in
`app/schemas.py`: `Literal["agent1", "agent2", "clarify"]`. -/
inductive Decision where
  | agent1
  | agent2
  | clarify
  deriving DecidableEq, Repr

/-- The string value of a decision literal, as stored in
`GraphState.agent_decision` (an `Optional[str]` in the source). -/
def Decision.toStr : Decision → String
  | Decision.agent1 => "agent1"
  | Decision.agent2 => "agent2"
  | Decision.clarify => "clarify"

/-- `RouterOutput` from `app/schemas.py`: the structured result of the
router classification call. -/
structure RouterOutput where
  decision : Decision
  clarification_message : Option String
  deriving DecidableEq, Repr

/-- `get_text_from_message` from `app/graph_nodes.py`, list case: walk
the parts and return the text of the FIRST text part, or the empty
string when no text part exists. -/
def firstTextOfParts : List ContentPart → String
  | [] => ""
  | ContentPart.text t :: _ => t
  | ContentPart.image_url _ :: rest => firstTextOfParts rest

/-- `get_text_from_message` from `app/graph_nodes.py`: a plain-string
content is returned whole; a parts list yields its first text part. -/
def get_text_from_message (m : Message) : String :=
  match m.content with
  | MessageContent.str s => s
  | MessageContent.parts ps => firstTextOfParts ps

/-- `has_images_in_message` from `app/graph_nodes.py`: true iff the
content is a parts list holding at least one image part. -/
def has_images_in_message (m : Message) : Bool :=
  match m.content with
  | MessageContent.str _ => false
  | MessageContent.parts ps =>
      ps.any (fun p =>
        match p with
        | ContentPart.image_url _ => true
        | ContentPart.text _ => false)

/-- Python truthiness of an `Optional[str]`: `None` and `""` are falsy. -/
def strTruthy : Option String → Bool
  | none => false
  | some s => !s.isEmpty

/-- Python `clarification or default` on an `Optional[str]`. -/
def optOr (c : Option String) (d : String) : String :=
  match c with
  | none => d
  | some s => if s.isEmpty then d else s

/-- `b` is a character-list prefix of `l`. -/
def prefixChars : List Char → List Char → Bool
  | [], _ => true
  | _ :: _, [] => false
  | a :: as, b :: bs => a == b && prefixChars as bs

/-- `needle` occurs as a contiguous sublist of `hay`. -/
def charsContain (hay needle : List Char) : Bool :=
  prefixChars needle hay ||
    match hay with
    | [] => false
    | _ :: rest => charsContain rest needle

/-- Python substring containment `needle in haystack` on strings. -/
def substrIn (needle haystack : String) : Bool :=
  charsContain haystack.toList needle.toList

/-- Python `str.lower()`, restricted to the ASCII range actually used
by the FAQ keywords and queries: lowercase every character. -/
def lowerString (s : String) : String :=
  ⟨s.toList.map Char.toLower⟩

/-- The fixed FAQ keyword list from `route_request`. -/
def faq_keywords : List String :=
  ["lease", "rent", "landlord", "tenant", "deposit", "agreement",
   "eviction", "notice", "law", "rights"]

/-- The keyword scan of `route_request`:
`any(keyword in last_query_text.lower() for keyword in faq_keywords)`. -/
def faqKeywordMatch (last_query_text : String) : Bool :=
  faq_keywords.any (fun keyword => substrIn keyword (lowerString last_query_text))

/-- Fixed message substituted when the router overrides a no-image
`agent1` decision to `clarify` (line 113 of `graph_nodes.py`). -/
def uploadImageMsg : String :=
  "It looks like you might need help with a visual issue, but you didn\x27t provide an image in your last message. Could you upload one? Or is your question about something else?"

/-- Fixed default clarification when the LLM chose `clarify` without a
message (line 119 of `graph_nodes.py`). -/
def howCanIHelpMsg : String :=
  "How can I help you further? Please ask a question about a property issue (with an image if needed) or a tenancy topic."

/-- Fixed apology used on a routing LLM failure (line 138). -/
def routingApologyMsg : String :=
  "Sorry, I encountered an issue routing your request. Could you please rephrase or specify if it\x27s about a visual issue (with image) or a tenancy question?"

/-- Fixed message returned when the router is called with no messages
(line 41). -/
def noMessagesMsg : String :=
  "Something went wrong, no user message found."

/-- The override ladder of `route_request` (lines 98-121), producing the
final decision together with the (possibly substituted) clarification:
the three branches are an `if`/`elif`/`elif` chain in the source. -/
def applyOverride (himg : Bool) (last_query_text : String)
    (decision : Decision) (clarification : Option String) :
    Decision × Option String :=
  if himg && decision == Decision.agent2 then
    if !(faqKeywordMatch last_query_text) then
      (Decision.agent1, none)
    else
      (decision, clarification)
  else if !himg && decision == Decision.agent1 then
    (Decision.clarify, some (optOr clarification uploadImageMsg))
  else if decision == Decision.clarify && !(strTruthy clarification) then
    (Decision.clarify, some howCanIHelpMsg)
  else
    (decision, clarification)

/-- The state-update dictionary a router invocation returns: the keys
`agent_decision`, `messages` (empty list = key absent) and `error`
(`none` = key absent). -/
structure RouteUpdate where
  agent_decision : String
  messages : List Message
  error : Option String
  deriving DecidableEq, Repr

/-- The success path of `route_request` (lines 88-133): apply the
override ladder and build the update dict, appending the clarification
as an `AIMessage` only when the final decision is `clarify` and the
clarification text is truthy. -/
def routeSuccess (last_message : Message) (resp : RouterOutput) : RouteUpdate :=
  let fc := applyOverride (has_images_in_message last_message)
      (get_text_from_message last_message) resp.decision resp.clarification_message
  { agent_decision := fc.1.toStr,
    messages :=
      if fc.1 == Decision.clarify && strTruthy fc.2 then
        [mkAI (fc.2.getD "")]
      else [],
    error := none }

/-- `route_request` from `app/graph_nodes.py`. The classification call
is the explicit `llm` input: `.error e` models any exception raised by
the structured LLM invocation. An empty message list short-circuits
before the LLM is invoked (lines 37-43); an invocation failure falls
back to `clarify` with a fixed apology and a recorded error
(lines 135-143). -/
def route_request (messages : List Message)
    (llm : Except String RouterOutput) : RouteUpdate :=
  match messages.getLast? with
  | none =>
      { agent_decision := "clarify",
        messages := [mkAI noMessagesMsg],
        error := some "Routing failed: No messages in state." }
  | some last_message =>
      match llm with
      | Except.error e =>
          { agent_decision := "clarify",
            messages := [mkAI routingApologyMsg],
            error := some ("Routing failed: " ++ e) }
      | Except.ok resp => routeSuccess last_message resp

/-- A handler node of the graph: `issue_detector` runs `execute_agent1`
(Visual-Issue Analyzer), `faq_agent` runs `execute_agent2`
(Tenancy-FAQ Responder). -/
inductive Handler where
  | issue_detector
  | faq_agent
  deriving DecidableEq, Repr

/-- `decide_next_node` from `app/graph_builder.py`: maps the state's
`agent_decision` (an `Optional[str]`, so possibly missing or arbitrary)
to an edge key; any unrecognized or missing value falls through to the
langgraph `END` sentinel. -/
def decide_next_node (decision : Option String) : String :=
  match decision with
  | none => "__end__"
  | some d =>
      if d = "agent1" then "issue_detector"
      else if d = "agent2" then "faq_agent"
      else if d = "clarify" then "clarify"
      else "__end__"

/-- The conditional-edge map of `build_graph` (lines 54-65): which
handler node, if any, the edge key selects. The keys `clarify` and
`__end__` both map to `END`, i.e. no handler. -/
def edgeTarget (key : String) : Option Handler :=
  if key = "issue_detector" then some Handler.issue_detector
  else if key = "faq_agent" then some Handler.faq_agent
  else none

/-- The dispatch step after the router node: the handler (if any) the
graph runs for a given `agent_decision` value. -/
def dispatch (decision : Option String) : Option Handler :=
  edgeTarget (decide_next_node decision)

/-- The state-update dictionary a handler node returns. -/
structure NodeUpdate where
  messages : List Message
  error : Option String
  deriving DecidableEq, Repr

/-- Fixed apology returned by `execute_agent1` on an LLM failure. -/
def agent1ErrorMsg : String :=
  "Sorry, I encountered an error analyzing the image(s)."

/-- Fixed apology returned by `execute_agent2` on an LLM failure. -/
def agent2ErrorMsg : String :=
  "Sorry, I encountered an error answering your question."

/-- `execute_agent1` from `app/graph_nodes.py`: the conversation is
forwarded to the vision capability, whose outcome is the explicit `llm`
input; on success the single AI response is appended, on failure a
fixed apology message is appended and the error recorded. -/
def execute_agent1 (llm : Except String Message) : NodeUpdate :=
  match llm with
  | Except.ok ai_response => { messages := [ai_response], error := none }
  | Except.error e =>
      { messages := [mkAI agent1ErrorMsg], error := some ("Agent 1 failed: " ++ e) }

/-- `execute_agent2` from `app/graph_nodes.py`: same shape as
`execute_agent1` with the text-FAQ capability. -/
def execute_agent2 (llm : Except String Message) : NodeUpdate :=
  match llm with
  | Except.ok ai_response => { messages := [ai_response], error := none }
  | Except.error e =>
      { messages := [mkAI agent2ErrorMsg], error := some ("Agent 2 failed: " ++ e) }

/-- The graph state after a full request, as read back by
`chat_endpoint` in `app/main.py`: the merged `messages` list (the
`add_messages` reducer appends), the last `agent_decision` and the
`error` field (plain field: a node update carrying `none` leaves the
previous value). -/
structure FinalState where
  messages : List Message
  agent_decision : Option String
  error : Option String
  deriving DecidableEq, Repr

/-- Merge of the `error` field across node updates: the field has no
reducer in `GraphState`, so a node that returns an `error` key
overwrites, and a node that omits it leaves the old value. -/
def mergeError (old new : Option String) : Option String :=
  match new with
  | some e => some e
  | none => old

/-- One full request cycle through the compiled graph, as invoked by
`chat_endpoint`: the incoming user turn is appended to the session's
conversation (`conv`), the router node runs (its classification outcome
is `routerLLM`), the conditional edge picks at most one handler, and
that handler's update (outcome `a1LLM` or `a2LLM`) is merged. -/
def run_request (conv : List Message) (userTurn : Message)
    (routerLLM : Except String RouterOutput)
    (a1LLM a2LLM : Except String Message) : FinalState :=
  let msgs := conv ++ [userTurn]
  let ru := route_request msgs routerLLM
  let msgs2 := msgs ++ ru.messages
  match dispatch (some ru.agent_decision) with
  | some Handler.issue_detector =>
      let au := execute_agent1 a1LLM
      { messages := msgs2 ++ au.messages,
        agent_decision := some ru.agent_decision,
        error := mergeError ru.error au.error }
  | some Handler.faq_agent =>
      let au := execute_agent2 a2LLM
      { messages := msgs2 ++ au.messages,
        agent_decision := some ru.agent_decision,
        error := mergeError ru.error au.error }
  | none =>
      { messages := msgs2,
        agent_decision := some ru.agent_decision,
        error := ru.error }

/-- Text extraction for the last AI message in `chat_endpoint`
(lines 170-180 of `app/main.py`): a string content is used whole; a
parts list yields all its text parts joined by newlines, or a fixed
notice when it has no text part. -/
def aiResponseText (c : MessageContent) : String :=
  match c with
  | MessageContent.str s => s
  | MessageContent.parts ps =>
      let text_parts := ps.filterMap (fun p =>
        match p with
        | ContentPart.text t => some t
        | ContentPart.image_url _ => none)
      if text_parts.isEmpty then "Received a non-standard response."
      else String.intercalate "\n" text_parts

/-- The response text `chat_endpoint` returns to the user
(lines 158-196 of `app/main.py`): a truthy `error` field takes
precedence and is interpolated verbatim after a fixed prefix; otherwise
the last message's content is used when it is an `AIMessage`; otherwise
fixed fallbacks. -/
def chat_response_text (error : Option String) (all_messages : List Message) : String :=
  if strTruthy error then
    "An error occurred: " ++ error.getD ""
  else
    match all_messages.getLast? with
    | some m =>
        match m.role with
        | Role.assistant => aiResponseText m.content
        | Role.user =>
            "I received your message, but I\x27m unable to provide a further response at this time."
    | none => "Chatbot failed to generate a valid response."

/-- A text-only user turn, as `main.py` builds it for the query "hello"
with no images attached. -/
def helloTurn : Message :=
  ⟨Role.user, MessageContent.parts [ContentPart.text "hello"]⟩

/-- A user turn carrying the query of spec Scenario D plus one image. -/
def moldImageTurn : Message :=
  ⟨Role.user, MessageContent.parts
    [ContentPart.text "there\x27s mold on my ceiling",
     ContentPart.image_url "data-url"]⟩

/-- A user turn whose text contains the keyword `rent` only inside the
word `parent`, plus one image. -/
def parentImageTurn : Message :=
  ⟨Role.user, MessageContent.parts
    [ContentPart.text "My parent asked about the flat",
     ContentPart.image_url "data-url"]⟩

/-- The concatenation of all text parts of a turn, following the spec
wording for `last_text` ("concatenation of its text parts"); to be
compared with the source's `get_text_from_message`. -/
def concatTextParts (ps : List ContentPart) : String :=
  String.join (ps.filterMap fun p =>
    match p with
    | ContentPart.text t => some t
    | ContentPart.image_url _ => none)

/-- How many text parts a content list holds. -/
def textPartsCount (ps : List ContentPart) : Nat :=
  (ps.filterMap fun p =>
    match p with
    | ContentPart.text t => some t
    | ContentPart.image_url _ => none).length

/-- Splitting a character list on the space character. -/
def splitOnSpace : List Char → List (List Char)
  | [] => [[]]
  | c :: rest =>
      let r := splitOnSpace rest
      if c == ' ' then [] :: r
      else
        match r with
        | [] => [[c]]
        | w :: ws => (c :: w) :: ws

/-- The whitespace-delimited words of a string. -/
def wordsOf (s : String) : List String :=
  (splitOnSpace s.toList).map (fun cs => (⟨cs⟩ : String))

/-! ### Helper lemmas -/

set_option maxRecDepth 100000

theorem optOr_isEmpty_false (c : Option String) (d : String)
    (h : d.isEmpty = false) : (optOr c d).isEmpty = false := by
  cases c with
  | none => exact h
  | some s =>
      simp only [optOr]
      split_ifs with hs
      · exact h
      · simpa using hs

theorem applyOverride_clarify_truthy (himg : Bool) (t : String)
    (d : Decision) (c : Option String)
    (h : (applyOverride himg t d c).1 = Decision.clarify) :
    strTruthy (applyOverride himg t d c).2 = true := by
  cases d <;> cases himg <;>
    simp only [applyOverride, Bool.true_and, Bool.false_and, Bool.and_self,
      beq_self_eq_true, beq_iff_eq, if_true, if_false, Bool.not_true,
      Bool.not_false] at h ⊢ <;>
    first
    | rfl
    | (split_ifs at h ⊢ with h1 <;>
        simp_all [strTruthy] <;>
        first
        | exact optOr_isEmpty_false _ _ (by decide)
        | decide)

theorem execute_agent1_len (llm : Except String Message) :
    (execute_agent1 llm).messages.length = 1 := by
  cases llm <;> rfl

theorem execute_agent2_len (llm : Except String Message) :
    (execute_agent2 llm).messages.length = 1 := by
  cases llm <;> rfl

theorem routeSuccess_shape (last : Message) (resp : RouterOutput) :
    ((routeSuccess last resp).agent_decision = "clarify" ∧
       (routeSuccess last resp).messages.length = 1) ∨
    (((routeSuccess last resp).agent_decision = "agent1" ∨
        (routeSuccess last resp).agent_decision = "agent2") ∧
       (routeSuccess last resp).messages = []) := by
  have h := applyOverride_clarify_truthy (has_images_in_message last)
      (get_text_from_message last) resp.decision resp.clarification_message
  simp only [routeSuccess]
  cases hfc : (applyOverride (has_images_in_message last) (get_text_from_message last)
      resp.decision resp.clarification_message).1 with
  | clarify =>
      left
      simp [hfc, h hfc, Decision.toStr]
  | agent1 => right; simp [hfc, Decision.toStr]
  | agent2 => right; simp [hfc, Decision.toStr]

theorem route_request_shape (msgs : List Message) (llm : Except String RouterOutput) :
    ((route_request msgs llm).agent_decision = "clarify" ∧
       (route_request msgs llm).messages.length = 1) ∨
    (((route_request msgs llm).agent_decision = "agent1" ∨
        (route_request msgs llm).agent_decision = "agent2") ∧
       (route_request msgs llm).messages = []) := by
  cases hl : msgs.getLast? with
  | none => left; simp [route_request, hl]
  | some last =>
      cases llm with
      | error e => left; simp [route_request, hl]
      | ok resp => simpa [route_request, hl] using routeSuccess_shape last resp

/-- Claim C3: the dispatcher runs exactly one of the two handlers or
none: `agent1` selects the issue detector, `agent2` the FAQ agent, and
`clarify` as well as every unrecognized or missing decision value ends
the graph with no handler invoked. -/
theorem dispatch_selects_exactly_one (d : Option String) :
    dispatch d =
      (if d = some "agent1" then some Handler.issue_detector
       else if d = some "agent2" then some Handler.faq_agent
       else none) := by
  cases d with
  | none => rfl
  | some s =>
      by_cases h1 : s = "agent1" <;> by_cases h2 : s = "agent2" <;>
        by_cases h3 : s = "clarify" <;>
        simp_all [dispatch, decide_next_node, edgeTarget]

/-- Claim C4: when the classification invocation fails with any
exception `e`, the router returns decision `clarify`, appends the fixed
apology turn, records the failure in the error field, and the
dispatcher invokes no handler. -/
theorem router_failure_clarifies (msgs : List Message) (last : Message)
    (e : String) (hlast : msgs.getLast? = some last) :
    (route_request msgs (Except.error e)).agent_decision = "clarify" ∧
    (route_request msgs (Except.error e)).messages = [mkAI routingApologyMsg] ∧
    (route_request msgs (Except.error e)).error =
      some ("Routing failed: " ++ e) ∧
    dispatch (some (route_request msgs (Except.error e)).agent_decision) = none := by
  simp [route_request, hlast, dispatch, decide_next_node, edgeTarget]

/-- Witness for C4 at a concrete conversation and exception text. -/
theorem router_failure_clarifies_witness :
    ([helloTurn].getLast? = some helloTurn) ∧
    (route_request [helloTurn] (Except.error "timeout")).agent_decision = "clarify" ∧
    (route_request [helloTurn] (Except.error "timeout")).messages =
      [mkAI routingApologyMsg] ∧
    (route_request [helloTurn] (Except.error "timeout")).error =
      some ("Routing failed: " ++ "timeout") ∧
    dispatch (some (route_request [helloTurn] (Except.error "timeout")).agent_decision) = none :=
  ⟨rfl, router_failure_clarifies [helloTurn] helloTurn "timeout" rfl⟩

/-- Claim C5: calling the router on a conversation with zero turns
fails locally: decision `clarify`, a generic apology turn appended, and
the failure recorded in the error field, whatever the (never invoked)
classifier would have returned. -/
theorem router_empty_conversation (llm : Except String RouterOutput) :
    route_request [] llm =
      { agent_decision := "clarify",
        messages := [mkAI noMessagesMsg],
        error := some "Routing failed: No messages in state." } := rfl

/-- Amended claim C9: after one complete request cycle the conversation
always has exactly N+2 turns — the appended user turn plus exactly one
assistant turn (the router's clarification on the clarify path, a
handler's response otherwise). -/
theorem request_cycle_turn_count (conv : List Message) (u : Message)
    (routerLLM : Except String RouterOutput)
    (a1LLM a2LLM : Except String Message) :
    (run_request conv u routerLLM a1LLM a2LLM).messages.length =
      conv.length + 2 := by
  rcases route_request_shape (conv ++ [u]) routerLLM with ⟨hd, hlen⟩ | ⟨hd | hd, hmsg⟩
  · simp [run_request, hd, hlen, dispatch, decide_next_node, edgeTarget]
  · simp [run_request, hd, hmsg, dispatch, decide_next_node, edgeTarget,
      execute_agent1_len]
  · simp [run_request, hd, hmsg, dispatch, decide_next_node, edgeTarget,
      execute_agent2_len]

/-- Counterexample to claim C9 as stated: a request that ends
clarify-only in the router still grows the conversation by two turns,
not one. -/
theorem request_cycle_clarify_not_one_turn :
    (run_request [] helloTurn (Except.ok ⟨Decision.clarify, some "Hi there."⟩)
        (Except.error "unused") (Except.error "unused")).agent_decision =
      some "clarify" ∧
    (run_request [] helloTurn (Except.ok ⟨Decision.clarify, some "Hi there."⟩)
        (Except.error "unused") (Except.error "unused")).messages.length ≠
      ([] : List Message).length + 1 := by
  constructor
  · rfl
  · decide

theorem optOr_of_falsy (c : Option String) (d : String)
    (hc : strTruthy c = false) : optOr c d = d := by
  cases c with
  | none => rfl
  | some s =>
      simp only [strTruthy, Bool.not_eq_false'] at hc
      simp [optOr, hc]

/-- Claim C1: with images in the last turn and a raw `agent2`
(tenancy_faq) classification, the router keeps `agent2` exactly when
the case-insensitive FAQ-keyword scan of the last turn text matches;
otherwise it overrides to `agent1` (visual_issue) and discards any
clarification text, so no clarification turn is emitted. -/
theorem image_faq_keyword_override (msgs : List Message) (last : Message)
    (resp : RouterOutput) (hlast : msgs.getLast? = some last)
    (himg : has_images_in_message last = true)
    (hdec : resp.decision = Decision.agent2) :
    (faqKeywordMatch (get_text_from_message last) = false →
      (route_request msgs (Except.ok resp)).agent_decision = "agent1" ∧
      (route_request msgs (Except.ok resp)).messages = []) ∧
    (faqKeywordMatch (get_text_from_message last) = true →
      (route_request msgs (Except.ok resp)).agent_decision = "agent2") := by
  constructor <;> intro hk <;>
    simp [route_request, hlast, routeSuccess, applyOverride, himg, hdec, hk,
      Decision.toStr, strTruthy]

/-- Witness for C1: spec Scenario D — a mold query with one image and a
raw `agent2` decision is overridden to `agent1` with no clarification
turn. -/
theorem image_faq_keyword_override_witness :
    has_images_in_message moldImageTurn = true ∧
    faqKeywordMatch (get_text_from_message moldImageTurn) = false ∧
    (route_request [moldImageTurn]
        (Except.ok ⟨Decision.agent2, some "Is this about tenancy?"⟩)).agent_decision =
      "agent1" ∧
    (route_request [moldImageTurn]
        (Except.ok ⟨Decision.agent2, some "Is this about tenancy?"⟩)).messages = [] := by
  have h := image_faq_keyword_override [moldImageTurn] moldImageTurn
      ⟨Decision.agent2, some "Is this about tenancy?"⟩ rfl (by decide) rfl
  exact ⟨by decide, by decide, (h.1 (by decide)).1, (h.1 (by decide)).2⟩

/-- Claim C2: when the last turn holds no image part the final decision
is never `agent1` (visual_issue); a raw `agent1` decision is overridden
to `clarify`, and when the classifier supplied no (truthy) clarification
text the fixed upload-an-image message is substituted and appended. -/
theorem no_image_never_visual (msgs : List Message) (last : Message)
    (llm : Except String RouterOutput) (hlast : msgs.getLast? = some last)
    (himg : has_images_in_message last = false) :
    (route_request msgs llm).agent_decision ≠ "agent1" ∧
    (∀ resp, llm = Except.ok resp → resp.decision = Decision.agent1 →
      (route_request msgs llm).agent_decision = "clarify" ∧
      (strTruthy resp.clarification_message = false →
        (route_request msgs llm).messages = [mkAI uploadImageMsg])) := by
  cases llm with
  | error e =>
      refine ⟨by simp [route_request, hlast], ?_⟩
      intro resp h
      cases h
  | ok resp =>
      have hmain : (route_request msgs (Except.ok resp)).agent_decision ≠ "agent1" := by
        cases hd : resp.decision <;>
          simp [route_request, hlast, routeSuccess, applyOverride, himg, hd,
            Decision.toStr, strTruthy] <;>
          (try split_ifs <;> simp [Decision.toStr])
      refine ⟨hmain, ?_⟩
      intro r hr hrd
      injection hr with hr
      subst hr
      constructor
      · simp [route_request, hlast, routeSuccess, applyOverride, himg, hrd,
          Decision.toStr]
      · intro hc
        simp [route_request, hlast, routeSuccess, applyOverride, himg, hrd,
          Decision.toStr, optOr_of_falsy _ _ hc, strTruthy]
        decide

/-- Witness for C2: a text-only "hello" turn with a raw `agent1`
decision and no clarification text yields `clarify` plus the fixed
upload-an-image message. -/
theorem no_image_never_visual_witness :
    has_images_in_message helloTurn = false ∧
    (route_request [helloTurn]
        (Except.ok ⟨Decision.agent1, none⟩)).agent_decision = "clarify" ∧
    (route_request [helloTurn]
        (Except.ok ⟨Decision.agent1, none⟩)).messages = [mkAI uploadImageMsg] := by
  have h := no_image_never_visual [helloTurn] helloTurn
      (Except.ok ⟨Decision.agent1, none⟩) rfl (by decide)
  exact ⟨by decide, (h.2 _ rfl rfl).1, (h.2 _ rfl rfl).2 (by decide)⟩

theorem optOr_of_truthy (c : Option String) (d : String)
    (hc : strTruthy c = true) : optOr c d = c.getD "" := by
  cases c with
  | none => simp [strTruthy] at hc
  | some s =>
      simp only [strTruthy, Bool.not_eq_true'] at hc
      simp [optOr, hc]

/-- Amended claim C6: on a successful classification whose final
decision is `clarify`, an empty or absent classifier clarification is
replaced by a fixed message — the upload-an-image message when the
clarify came from the no-image override of a raw `agent1` decision,
the generic how-can-I-help message otherwise — and a truthy
clarification is appended verbatim as exactly one assistant turn; a
final `agent1` or `agent2` decision appends no turn. -/
theorem clarify_message_substitution (msgs : List Message) (last : Message)
    (resp : RouterOutput) (hlast : msgs.getLast? = some last) :
    ((route_request msgs (Except.ok resp)).agent_decision = "clarify" →
      strTruthy resp.clarification_message = false →
      (route_request msgs (Except.ok resp)).messages =
        [mkAI (if resp.decision == Decision.agent1 then uploadImageMsg
               else howCanIHelpMsg)]) ∧
    ((route_request msgs (Except.ok resp)).agent_decision = "clarify" →
      strTruthy resp.clarification_message = true →
      (route_request msgs (Except.ok resp)).messages =
        [mkAI (resp.clarification_message.getD "")]) ∧
    (((route_request msgs (Except.ok resp)).agent_decision = "agent1" ∨
        (route_request msgs (Except.ok resp)).agent_decision = "agent2") →
      (route_request msgs (Except.ok resp)).messages = []) := by
  cases hd : resp.decision <;>
    cases hi : has_images_in_message last <;>
      cases hcm : resp.clarification_message <;>
        cases hk : faqKeywordMatch (get_text_from_message last) <;>
          simp [route_request, hlast, routeSuccess, applyOverride, hd, hi, hcm,
            hk, Decision.toStr, strTruthy, optOr] <;>
          (try split_ifs) <;>
          simp_all [Decision.toStr,
            (by decide : uploadImageMsg.isEmpty = false),
            (by decide : howCanIHelpMsg.isEmpty = false)]

/-- Witness for amended C6: a raw `clarify` decision without
clarification text yields the fixed how-can-I-help turn. -/
theorem clarify_message_substitution_witness :
    (route_request [helloTurn]
        (Except.ok ⟨Decision.clarify, none⟩)).messages = [mkAI howCanIHelpMsg] := by
  have h := clarify_message_substitution [helloTurn] helloTurn
      ⟨Decision.clarify, none⟩ rfl
  simpa using h.1 (by decide) rfl

/-- Counterexample to claim C6 as stated: a final `clarify` decision
with absent clarification text does not always receive the generic
how-can-I-help message — the no-image override substitutes the
upload-an-image message instead. -/
theorem clarify_substitution_counterexample :
    (route_request [helloTurn]
        (Except.ok ⟨Decision.agent1, none⟩)).agent_decision = "clarify" ∧
    strTruthy (RouterOutput.mk Decision.agent1 none).clarification_message = false ∧
    (route_request [helloTurn]
        (Except.ok ⟨Decision.agent1, none⟩)).messages ≠ [mkAI howCanIHelpMsg] := by
  refine ⟨rfl, rfl, ?_⟩
  decide

theorem strTruthy_some_append (s t : String) (h : s.data ≠ []) :
    strTruthy (some (s ++ t)) = true := by
  simp only [strTruthy, Bool.not_eq_true']
  rw [Bool.eq_false_iff]
  intro he
  have he2 : s ++ t = "" := (String.isEmpty_iff (s ++ t)).mp he
  have he3 : s.data ++ t.data = [] := by
    simpa [String.data_append] using congrArg String.data he2
  exact h (List.append_eq_nil.mp he3).1

/-- Amended claim C7: the recorded error IS shown verbatim to the end
user — on any request whose router classification fails with exception
text `e`, the chat response the user receives is exactly the fixed
prefix followed by the raw error field, raw exception text included. -/
theorem error_field_shown_verbatim (conv : List Message) (userTurn : Message)
    (e : String) (a1LLM a2LLM : Except String Message) :
    chat_response_text
        (run_request conv userTurn (Except.error e) a1LLM a2LLM).error
        (run_request conv userTurn (Except.error e) a1LLM a2LLM).messages =
      "An error occurred: " ++ ("Routing failed: " ++ e) := by
  have hne : ("Routing failed: " : String).data ≠ [] := by decide
  simp [run_request, route_request, List.getLast?_concat, dispatch,
    decide_next_node, edgeTarget, chat_response_text,
    strTruthy_some_append _ _ hne]

/-- Counterexample to claim C7 as stated: after a router failure with
raw exception text "boom", the user-visible chat response contains
"boom" — the error field is interpolated verbatim. -/
theorem error_never_shown_counterexample :
    (run_request [] helloTurn (Except.error "boom")
        (Except.error "x") (Except.error "x")).error =
      some "Routing failed: boom" ∧
    substrIn "boom"
        (chat_response_text
          (run_request [] helloTurn (Except.error "boom")
            (Except.error "x") (Except.error "x")).error
          (run_request [] helloTurn (Except.error "boom")
            (Except.error "x") (Except.error "x")).messages) = true := by
  constructor
  · rfl
  · decide

theorem firstText_eq_concat_of_le_one :
    ∀ ps : List ContentPart, textPartsCount ps ≤ 1 →
      firstTextOfParts ps = concatTextParts ps := by
  intro ps
  induction ps with
  | nil => intro _; rfl
  | cons p rest ih =>
      intro h
      cases p with
      | text t =>
          have h0 : (rest.filterMap fun p =>
              match p with
              | ContentPart.text t => some t
              | ContentPart.image_url _ => none) = [] := by
            have : textPartsCount rest = 0 := by
              simp only [textPartsCount, List.filterMap_cons,
                List.length_cons] at h ⊢
              omega
            exact List.length_eq_zero.mp this
          simp [firstTextOfParts, concatTextParts, List.filterMap_cons, h0,
            String.join, String.empty_append]
      | image_url u =>
          have hrest := ih (by
            simpa only [textPartsCount, List.filterMap_cons] using h)
          simpa [firstTextOfParts, concatTextParts, List.filterMap_cons]
            using hrest

/-- Amended claim C8: the `last_text` the router uses is the text of
the FIRST text part of the turn (empty when there is none), not the
concatenation of all text parts; the two agree whenever the turn holds
at most one text part — in particular for every turn built by the chat
endpoint, which always carries exactly one text part. -/
theorem last_text_is_first_text_part (r : Role) (ps : List ContentPart)
    (h : textPartsCount ps ≤ 1) :
    get_text_from_message ⟨r, MessageContent.parts ps⟩ = firstTextOfParts ps ∧
    get_text_from_message ⟨r, MessageContent.parts ps⟩ = concatTextParts ps :=
  ⟨rfl, firstText_eq_concat_of_le_one ps h⟩

/-- Witness for amended C8 at a one-text-part turn with an image. -/
theorem last_text_is_first_text_part_witness :
    textPartsCount [ContentPart.text "hello", ContentPart.image_url "u"] ≤ 1 ∧
    get_text_from_message ⟨Role.user, MessageContent.parts
        [ContentPart.text "hello", ContentPart.image_url "u"]⟩ =
      concatTextParts [ContentPart.text "hello", ContentPart.image_url "u"] :=
  ⟨by decide,
   (last_text_is_first_text_part Role.user
     [ContentPart.text "hello", ContentPart.image_url "u"] (by decide)).2⟩

/-- Counterexample to claim C8 as stated: on a turn with two text
parts the router's text extraction returns the first part only, not the
concatenation. -/
theorem last_text_counterexample :
    get_text_from_message ⟨Role.user, MessageContent.parts
        [ContentPart.text "flat ", ContentPart.text "roof"]⟩ = "flat " ∧
    concatTextParts [ContentPart.text "flat ", ContentPart.text "roof"] =
      "flat roof" ∧
    ("flat " : String) ≠ "flat roof" := by
  refine ⟨rfl, ?_, by decide⟩
  simp [concatTextParts, String.join]

/-- Claim C10: the FAQ-keyword scan is plain substring containment on
the lowercased text, not whole-word matching: in a last turn holding an
image whose text contains `rent` only inside `parent`, no keyword is a
whole word of the text, yet the scan matches, the override does not
fire, and a raw `agent2` decision stays `agent2`. -/
theorem keyword_scan_is_substring_containment :
    ((wordsOf (lowerString (get_text_from_message parentImageTurn))).all
        (fun w => !(faq_keywords.contains w))) = true ∧
    faqKeywordMatch (get_text_from_message parentImageTurn) = true ∧
    has_images_in_message parentImageTurn = true ∧
    (route_request [parentImageTurn]
        (Except.ok ⟨Decision.agent2, none⟩)).agent_decision = "agent2" := by
  refine ⟨by decide, by decide, by decide, by decide⟩
